import Mathlib

/-!
Verification development for the circus board-game agent
(`main.cpp` and its duplicate engine variant, called `part_001` below).

The C++ data structures are embedded shallowly:
  * the 12 x 9 `CellInfo field[][]` array together with `operator[]` becomes a
    total function `cellAt : Cell -> CellInfo`;
  * `unordered_map<int, Cell> positions` becomes a total function
    `positions : Int -> Cell` (every entity id queried by the engine is
    assigned a position at setup, so `at` never throws on the queried keys;
    the default value `NONE_CELL` stands for an absent key);
  * `unordered_set` containers become lists, with `count`/iteration modelled
    by `List.contains`/list traversal and `erase` by `List.filter`;
  * machine integers become `Int`; `x >> 3` becomes `Int.fdiv x 8`
    (arithmetic shift), `x & 0b111` becomes `Int.emod x 8` (two`s-complement
    AND with a positive mask), and C `%` becomes `Int.tmod` (truncated).
-/

namespace Circus

def MAX_STEPS : Int := 300
def FIELD_WIDTH : Int := 12
def FIELD_HEIGHT : Int := 9

/-- `struct Cell { int row = -1, col = 25; }`. -/
structure Cell where
  row : Int
  col : Int
deriving DecidableEq, Repr

/-- `Cell::isInFieldBounds`. -/
def Cell.isInFieldBounds (c : Cell) : Bool :=
  decide (0 ≤ c.row) && decide (c.row < FIELD_HEIGHT) &&
    decide (0 ≤ c.col) && decide (c.col < FIELD_WIDTH)

/-- `struct Move { Cell from, to; }` (`from` is a Lean keyword, hence `from'`). -/
structure Move where
  from' : Cell
  to' : Cell
deriving DecidableEq, Repr

/-- `const Cell NONE_CELL{}` (default row -1, col 25). -/
def NONE_CELL : Cell := ⟨-1, 25⟩

/-- `const Move NONE_MOVE{NONE_CELL, NONE_CELL}`. -/
def NONE_MOVE : Move := ⟨NONE_CELL, NONE_CELL⟩

/-- `Entity::EntityType` with its integer codes kept in `EntityType.code`. -/
inductive EntityType where
  | CLOWN
  | STRONGMAN
  | ACROBAT
  | MAGICIAN
  | TRAINER
  | NONE_TYPE
deriving DecidableEq, Repr

/-- The integer value of each `EntityType` enumerator. -/
def EntityType.code : EntityType → Int
  | .CLOWN => 0
  | .STRONGMAN => 2
  | .ACROBAT => 4
  | .MAGICIAN => 5
  | .TRAINER => 6
  | .NONE_TYPE => -1

/-- `struct Entity { int id; int ownerId; EntityType type; }`. -/
structure Entity where
  id : Int
  ownerId : Int
  type : EntityType
deriving DecidableEq, Repr

/-- `Entity::idOf(ownerId, type, isSecond) = (ownerId << 3) + (int)type + (int)isSecond`. -/
def Entity.idOf (ownerId : Int) (type : EntityType) (isSecond : Bool) : Int :=
  ownerId * 8 + type.code + (if isSecond then 1 else 0)

/-- `Entity::typeById`: a switch on `id & 0b111`.  Note that the source has no
case for residue 4, so ids of acrobats map to `NONE_TYPE` here. -/
def Entity.typeById (id : Int) : EntityType :=
  let r := Int.emod id 8
  if r = 0 ∨ r = 1 then .CLOWN
  else if r = 2 ∨ r = 3 then .STRONGMAN
  else if r = 5 then .MAGICIAN
  else if r = 6 then .TRAINER
  else .NONE_TYPE

/-- The `Entity(ownerId, type, isSecond)` constructor. -/
def Entity.make (ownerId : Int) (type : EntityType) (isSecond : Bool) : Entity :=
  ⟨Entity.idOf ownerId type isSecond, ownerId, type⟩

/-- The `explicit Entity(id)` constructor: `ownerId = id >> 3`, `type = typeById id`. -/
def Entity.ofId (id : Int) : Entity :=
  ⟨id, Int.fdiv id 8, Entity.typeById id⟩

/-- `const Entity NONE_ENTITY(-1, Entity::NONE_TYPE)`. -/
def NONE_ENTITY : Entity := Entity.make (-1) .NONE_TYPE false

/-- `struct CellInfo { bool hasHouse = false; Entity entity = NONE_ENTITY; }`. -/
structure CellInfo where
  hasHouse : Bool
  entity : Entity
deriving DecidableEq, Repr

/-- `struct Field`, with the grid array replaced by the total lookup `cellAt`. -/
structure Field where
  houses : List Cell
  cellAt : Cell → CellInfo
  positions : Int → Cell
  freeHouses : List Cell
  activeEntities : List Int

/-- `Field::set(cell, entity)`: writes the grid cell and the position index. -/
def Field.set (f : Field) (cell : Cell) (entity : Entity) : Field :=
  { f with
    cellAt := fun c => if c = cell then { f.cellAt cell with entity := entity } else f.cellAt c
    positions := fun i => if i = entity.id then cell else f.positions i }

/-- `Field::clear(cell)`: resets the grid cell only (the index is untouched). -/
def Field.clear (f : Field) (cell : Cell) : Field :=
  { f with
    cellAt := fun c => if c = cell then { f.cellAt cell with entity := NONE_ENTITY } else f.cellAt c }

/-- `Field::MoveType`. -/
inductive MoveType where
  | ILLEGAL_MOVE
  | NO_MOVE
  | BASE_MOVE
  | DOUBLE_MOVE
  | SWAP
  | PUSH
deriving DecidableEq, Repr

/-- `Field::isBlockedByTrainer(cell, trainerCell)`: Chebyshev distance at most 1. -/
def Field.isBlockedByTrainer (cell trainerCell : Cell) : Bool :=
  decide (|cell.row - trainerCell.row| ≤ 1) && decide (|cell.col - trainerCell.col| ≤ 1)

/-- The local `enemy = (player + 1) % 2` of `checkMove`, where `player` is
the owner of the entity standing on the source cell, combined with
`Entity::idOf(enemy, TRAINER)`. -/
def Field.enemyTrainerId (f : Field) (move : Move) : Int :=
  Entity.idOf (Int.tmod ((f.cellAt move.from').entity.ownerId + 1) 2) .TRAINER false

/-- The local `nextCell{move.to.row + difRow, move.to.col + difCol}` of
`checkMove` (the cell one step beyond the target). -/
def Move.nextCell (move : Move) : Cell :=
  ⟨move.to'.row + (move.to'.row - move.from'.row),
    move.to'.col + (move.to'.col - move.from'.col)⟩

/-- `Field::checkMove`, transliterated test by test from the source; the
locals `targetIsHouse`, `entityType`, `difRow`, `difCol`, `targetEntity`,
`enemyTrainerCell` and `enemyTrainerActive` are expanded at each of their
uses (`enemy` and `nextCell` are named by `enemyTrainerId` and
`Move.nextCell` above). -/
def Field.checkMove (f : Field) (move : Move) : MoveType :=
  if move = NONE_MOVE then .NO_MOVE
  else if move.from' = move.to' then .ILLEGAL_MOVE
  else if !move.from'.isInFieldBounds || !move.to'.isInFieldBounds then .ILLEGAL_MOVE
  else if (f.cellAt move.from').hasHouse then .ILLEGAL_MOVE
  else if (f.cellAt move.to').hasHouse ∧
      (f.cellAt move.to').entity.type ≠ EntityType.NONE_TYPE then .ILLEGAL_MOVE
  else if (f.cellAt move.from').entity.type = EntityType.NONE_TYPE then .ILLEGAL_MOVE
  else if f.activeEntities.contains (f.enemyTrainerId move) ∧
      Field.isBlockedByTrainer move.from' (f.positions (f.enemyTrainerId move)) then .ILLEGAL_MOVE
  else if f.activeEntities.contains (f.enemyTrainerId move) ∧
      Field.isBlockedByTrainer move.to' (f.positions (f.enemyTrainerId move)) then .ILLEGAL_MOVE
  else if (f.cellAt move.to').entity.type = EntityType.NONE_TYPE ∧
      (if (f.cellAt move.to').hasHouse then
        |move.to'.col - move.from'.col| + |move.to'.row - move.from'.row| = 1
      else
        |move.to'.row - move.from'.row| ≤ 1 ∧ |move.to'.col - move.from'.col| ≤ 1) then
    .BASE_MOVE
  else
    match (f.cellAt move.from').entity.type with
    | .CLOWN | .TRAINER | .NONE_TYPE => .ILLEGAL_MOVE
    | .ACROBAT =>
      if (f.cellAt move.to').entity.type = EntityType.NONE_TYPE ∧
          (move.to'.col - move.from'.col = 0 ∨ move.to'.row - move.from'.row = 0) ∧
          |move.to'.col - move.from'.col| + |move.to'.row - move.from'.row| = 2 then
        .DOUBLE_MOVE
      else if (f.cellAt move.to').entity.type = EntityType.NONE_TYPE ∧
          ¬(f.cellAt move.to').hasHouse ∧
          (|move.to'.row - move.from'.row| = 2 ∧ |move.to'.col - move.from'.col| = 2) then
        .DOUBLE_MOVE
      else .ILLEGAL_MOVE
    | .STRONGMAN =>
      if move.nextCell.isInFieldBounds ∧
          (f.cellAt move.nextCell).entity.type = EntityType.NONE_TYPE ∧
          (¬(f.cellAt move.nextCell).hasHouse ∨
            (move.to'.col - move.from'.col = 0 ∨ move.to'.row - move.from'.row = 0)) ∧
          (¬f.activeEntities.contains (f.enemyTrainerId move) ∨
            ¬Field.isBlockedByTrainer move.nextCell (f.positions (f.enemyTrainerId move))) then
        .PUSH
      else .ILLEGAL_MOVE
    | .MAGICIAN =>
      if (f.cellAt move.to').entity.type ≠ EntityType.NONE_TYPE ∧
          ((f.cellAt move.to').entity.ownerId = (f.cellAt move.from').entity.ownerId ∨
            ((f.cellAt move.to').entity.type ≠ EntityType.TRAINER ∧
              (f.cellAt move.to').entity.type ≠ EntityType.MAGICIAN)) then
        .SWAP
      else .ILLEGAL_MOVE

/-- `Field::baseOrDoubleMove`. -/
def Field.baseOrDoubleMove (f : Field) (move : Move) : Field :=
  let movingEntity := (f.cellAt move.from').entity
  let f1 := (f.clear move.from').set move.to' movingEntity
  let info := f1.cellAt move.to'
  if info.hasHouse then
    { f1 with
      activeEntities := f1.activeEntities.filter (fun i => decide (i ≠ movingEntity.id))
      freeHouses := f1.freeHouses.filter (fun c => decide (c ≠ move.to')) }
  else f1

/-- `Field::swapMove`. -/
def Field.swapMove (f : Field) (move : Move) : Field :=
  let magician := (f.cellAt move.from').entity
  let assistant := (f.cellAt move.to').entity
  (f.set move.to' magician).set move.from' assistant

/-- `Field::pushMove`: `nextCell = to + (to - from)`. -/
def Field.pushMove (f : Field) (move : Move) : Field :=
  let strongman := (f.cellAt move.from').entity
  let pushedEntity := (f.cellAt move.to').entity
  let nextCell : Cell := ⟨2 * move.to'.row - move.from'.row, 2 * move.to'.col - move.from'.col⟩
  let f1 := ((f.clear move.from').set move.to' strongman).set nextCell pushedEntity
  let info := f1.cellAt nextCell
  if info.hasHouse then
    { f1 with
      activeEntities := f1.activeEntities.filter (fun i => decide (i ≠ pushedEntity.id))
      freeHouses := f1.freeHouses.filter (fun c => decide (c ≠ nextCell)) }
  else f1

/-- `Field::doMove` of `main.cpp`: the `ILLEGAL_MOVE` branch runs
`assert(false && "illegal move")`, modelled as the failure value `none`
(the behaviour of a non-release build). -/
def Field.doMove (f : Field) (move : Move) : Option Field :=
  match f.checkMove move with
  | .ILLEGAL_MOVE => none
  | .NO_MOVE => some f
  | .BASE_MOVE | .DOUBLE_MOVE => some (f.baseOrDoubleMove move)
  | .SWAP => some (f.swapMove move)
  | .PUSH => some (f.pushMove move)

/-- `Field::doMove` of the `part_001` variant: its `ILLEGAL_MOVE` branch is
empty, so an illegal move is silently accepted and the field is returned
unchanged. -/
def Field.doMoveQuiet (f : Field) (move : Move) : Field :=
  match f.checkMove move with
  | .ILLEGAL_MOVE => f
  | .NO_MOVE => f
  | .BASE_MOVE | .DOUBLE_MOVE => f.baseOrDoubleMove move
  | .SWAP => f.swapMove move
  | .PUSH => f.pushMove move

/-- `struct State`. -/
structure State where
  myPlayer : Int
  field : Field
  doneSteps : Int
  currentPlayer : Int

/-- Applying a list of moves in order with the (total) `part_001` move
application; used to talk about sequences of applied moves. -/
def Field.applyMoves (f : Field) (moves : List Move) : Field :=
  moves.foldl Field.doMoveQuiet f

/-- `moves` is a sequence of moves each of which is legal (not classified
`ILLEGAL_MOVE`) at its point of application. -/
def Field.legalSeq (f : Field) : List Move → Bool
  | [] => true
  | m :: ms => decide (f.checkMove m ≠ MoveType.ILLEGAL_MOVE) && (f.doMoveQuiet m).legalSeq ms

/-- `addMoveIfLegal` (identical in `main.cpp` and `part_001`): pushes the move
onto the output for BASE/PUSH/DOUBLE/NO, pushes a SWAP only when `addSwaps`
is set, and drops illegal moves.  Modelled as the list of appended moves. -/
def addMoveIfLegal (state : State) (move : Move) (addSwaps : Bool) : List Move :=
  match state.field.checkMove move with
  | .BASE_MOVE | .PUSH | .DOUBLE_MOVE | .NO_MOVE => [move]
  | .SWAP => if addSwaps then [move] else []
  | .ILLEGAL_MOVE => []

/-- The loop bounds `for (int dRow = -1; dRow <= 1; ++dRow)`. -/
def offsets : List Int := [-1, 0, 1]

/-- `allAvailableMoves` (identical in `main.cpp` and `part_001`).  Every call
of `addMoveIfLegal` in the source uses the default `addSwaps = false`,
including the one in the magician loop. -/
def allAvailableMoves (state : State) : List Move :=
  let base :=
    state.field.activeEntities.flatMap (fun entityId =>
      let position := state.field.positions entityId
      let entity := Entity.ofId entityId
      if entity.ownerId ≠ state.currentPlayer then []
      else
        offsets.flatMap (fun dRow =>
          offsets.flatMap (fun dCol =>
            addMoveIfLegal state ⟨position, ⟨position.row + dRow, position.col + dCol⟩⟩ false)))
  let acrobatPosition := state.field.positions (Entity.idOf state.currentPlayer .ACROBAT false)
  let acro :=
    offsets.flatMap (fun dRow =>
      offsets.flatMap (fun dCol =>
        addMoveIfLegal state
          ⟨acrobatPosition, ⟨acrobatPosition.row + dRow, acrobatPosition.col + dCol⟩⟩ false))
  let magicianPosition := state.field.positions (Entity.idOf state.currentPlayer .MAGICIAN false)
  let swaps :=
    state.field.activeEntities.flatMap (fun assistantId =>
      addMoveIfLegal state ⟨magicianPosition, state.field.positions assistantId⟩ false)
  base ++ acro ++ swaps ++ [NONE_MOVE]

/-! Solution constants of `part_001`. -/

def SCORE_FOR_CAPTURED_HOUSE : Int := 1000
def SCORE_FOR_LOST_HOUSE : Int := -150
def SCORE_FOR_UNINHABITED_FRIEND_CLOWN : Int := -100
def SCORE_FOR_BLOCKED_FRIEND_CLOWN : Int := -100
def SCORE_FOR_UNINHABITED_ENEMY_CLOWN : Int := 1000
def SCORE_FOR_BLOCKED_ENEMY_CLOWN : Int := 10
def SCORE_FOR_UNINHABITED_FRIEND_STRONGMAN : Int := -50
def SCORE_FOR_BLOCKED_FRIEND_STRONGMAN : Int := -150
def SCORE_FOR_UNINHABITED_ENEMY_STRONGMAN : Int := 100
def SCORE_FOR_BLOCKED_ENEMY_STRONGMAN : Int := 25
def SCORE_FOR_UNINHABITED_FRIEND_ACROBAT : Int := -20
def SCORE_FOR_BLOCKED_FRIEND_ACROBAT : Int := -300
def SCORE_FOR_UNINHABITED_ENEMY_ACROBAT : Int := 50
def SCORE_FOR_BLOCKED_ENEMY_ACROBAT : Int := 20
def SCORE_FOR_UNINHABITED_FRIEND_MAGICIAN : Int := -20
def SCORE_FOR_BLOCKED_FRIEND_MAGICIAN : Int := -500
def SCORE_FOR_UNINHABITED_ENEMY_MAGICIAN : Int := -10
def SCORE_FOR_BLOCKED_ENEMY_MAGICIAN : Int := 40
def SCORE_FOR_UNINHABITED_FRIEND_TRAINER : Int := -SCORE_FOR_CAPTURED_HOUSE
def SCORE_FOR_UNINHABITED_ENEMY_TRAINER : Int := -10
def SCORE_DISTANCE_TO_END_MULTIPLIER : Int := 1
def SCORE_DISTANCE_TO_HOUSE_MULTIPLIER : Int := 2

/-- `distanceToNearestHouse(state, cell)` of `part_001`. -/
def distanceToNearestHouse (state : State) (cell : Cell) : Int :=
  let dst := state.field.freeHouses.foldl
    (fun dst house => min dst (|cell.row - house.row| + |cell.col - house.col|)) 1000
  if dst = 1000 then 0 else dst

/-- The body of the scoring loop of `stateScore` in `part_001` for one
`entityId` (the loop adds these contributions for ids 0..14, skipping 7). -/
def entityScoreP1 (state : State) (entityId : Int) : Int :=
  let player := state.myPlayer
  let enemy := Int.tmod (player + 1) 2
  let friendTrainerCell := state.field.positions (Entity.idOf player .TRAINER false)
  let enemyTrainerCell := state.field.positions (Entity.idOf enemy .TRAINER false)
  let friendTrainerActive :=
    state.field.activeEntities.contains (Entity.idOf player .TRAINER false)
  let enemyTrainerActive :=
    state.field.activeEntities.contains (Entity.idOf enemy .TRAINER false)
  let entity := Entity.ofId entityId
  let my := entity.ownerId = player
  let cell := state.field.positions entityId
  if (state.field.cellAt cell).hasHouse then
    if my then SCORE_FOR_CAPTURED_HOUSE else SCORE_FOR_LOST_HOUSE
  else
    let blockedByFriendTrainer :=
      friendTrainerActive && Field.isBlockedByTrainer friendTrainerCell cell &&
        !(state.field.cellAt cell).hasHouse
    let blockedByEnemyTrainer :=
      enemyTrainerActive && Field.isBlockedByTrainer enemyTrainerCell cell &&
        !(state.field.cellAt cell).hasHouse
    let typeTerm : Int :=
      match entity.type with
      | .CLOWN =>
        if my then
          SCORE_FOR_UNINHABITED_FRIEND_CLOWN +
            (if blockedByEnemyTrainer then SCORE_FOR_BLOCKED_FRIEND_CLOWN else 0)
        else
          SCORE_FOR_UNINHABITED_ENEMY_CLOWN +
            (if blockedByFriendTrainer then SCORE_FOR_BLOCKED_ENEMY_CLOWN else 0)
      | .STRONGMAN =>
        if my then
          SCORE_FOR_UNINHABITED_FRIEND_STRONGMAN +
            (if blockedByEnemyTrainer then SCORE_FOR_BLOCKED_FRIEND_STRONGMAN else 0)
        else
          SCORE_FOR_UNINHABITED_ENEMY_STRONGMAN +
            (if blockedByFriendTrainer then SCORE_FOR_BLOCKED_ENEMY_STRONGMAN else 0)
      | .ACROBAT =>
        if my then
          SCORE_FOR_UNINHABITED_FRIEND_ACROBAT +
            (if blockedByEnemyTrainer then SCORE_FOR_BLOCKED_FRIEND_ACROBAT else 0)
        else
          SCORE_FOR_UNINHABITED_ENEMY_ACROBAT +
            (if blockedByFriendTrainer then SCORE_FOR_BLOCKED_ENEMY_ACROBAT else 0)
      | .MAGICIAN =>
        if my then
          SCORE_FOR_UNINHABITED_FRIEND_MAGICIAN +
            (if blockedByEnemyTrainer then SCORE_FOR_BLOCKED_FRIEND_MAGICIAN else 0)
        else
          SCORE_FOR_UNINHABITED_ENEMY_MAGICIAN +
            (if blockedByFriendTrainer then SCORE_FOR_BLOCKED_ENEMY_MAGICIAN else 0)
      | .TRAINER =>
        if my then -SCORE_FOR_UNINHABITED_FRIEND_TRAINER else -SCORE_FOR_UNINHABITED_ENEMY_TRAINER
      | .NONE_TYPE => 0
    let colScore : Int :=
      if my then -(SCORE_DISTANCE_TO_END_MULTIPLIER * (11 - cell.col))
      else SCORE_DISTANCE_TO_END_MULTIPLIER * (11 - cell.col)
    let dst := distanceToNearestHouse state cell
    let dstScore : Int :=
      if my then -(SCORE_DISTANCE_TO_HOUSE_MULTIPLIER * dst)
      else SCORE_DISTANCE_TO_HOUSE_MULTIPLIER * dst
    typeTerm + colScore + dstScore

/-- `stateScore` of `part_001`: the loop over entity ids 0..14 skipping 7. -/
def stateScoreP1 (state : State) : Int :=
  (((List.range 15).map Int.ofNat).filter (fun i => decide (i ≠ 7))).foldl
    (fun score i => score + entityScoreP1 state i) 0

/-- The body of the scoring loop of `stateScore` in `main.cpp` for one
`entityId` (constants are inlined in that variant and there is no
distance-to-house term). -/
def entityScoreMain (state : State) (entityId : Int) : Int :=
  let player := state.myPlayer
  let enemy := Int.tmod (player + 1) 2
  let friendTrainerCell := state.field.positions (Entity.idOf player .TRAINER false)
  let enemyTrainerCell := state.field.positions (Entity.idOf enemy .TRAINER false)
  let friendTrainerActive :=
    state.field.activeEntities.contains (Entity.idOf player .TRAINER false)
  let enemyTrainerActive :=
    state.field.activeEntities.contains (Entity.idOf enemy .TRAINER false)
  let entity := Entity.ofId entityId
  let my := entity.ownerId = player
  let cell := state.field.positions entityId
  if (state.field.cellAt cell).hasHouse then
    if my then 50 else -50
  else
    let blockedByFriendTrainer :=
      friendTrainerActive && Field.isBlockedByTrainer friendTrainerCell cell &&
        !(state.field.cellAt cell).hasHouse
    let blockedByEnemyTrainer :=
      enemyTrainerActive && Field.isBlockedByTrainer enemyTrainerCell cell &&
        !(state.field.cellAt cell).hasHouse
    let typeTerm : Int :=
      match entity.type with
      | .CLOWN =>
        if my then -100 + (if blockedByEnemyTrainer then -100 else 0)
        else 1000 + (if blockedByFriendTrainer then 200 else 0)
      | .STRONGMAN =>
        if my then -50 + (if blockedByEnemyTrainer then -150 else 0)
        else 100 + (if blockedByFriendTrainer then 250 else 0)
      | .ACROBAT =>
        if my then -20 + (if blockedByEnemyTrainer then -300 else 0)
        else 50 + (if blockedByFriendTrainer then 200 else 0)
      | .MAGICIAN =>
        if my then -20 + (if blockedByEnemyTrainer then -500 else 0)
        else -10 + (if blockedByFriendTrainer then 400 else 0)
      | .TRAINER => if my then -30 else -10
      | .NONE_TYPE => 0
    let colScore : Int := if my then -(11 - cell.col) else 11 - cell.col
    typeTerm + colScore

/-- `stateScore` of `main.cpp`: the loop over entity ids 0..14 skipping 7. -/
def stateScoreMain (state : State) : Int :=
  (((List.range 15).map Int.ofNat).filter (fun i => decide (i ≠ 7))).foldl
    (fun score i => score + entityScoreMain state i) 0

/-- The pruning loop of `chooseBestMoveRecursive` (`part_001`) on the branch
`state.currentPlayer == state.myPlayer`:
`minScore = movesWithScore.back().first - 50` is fixed first, then fronts
with a smaller score are erased while the first element is below it. -/
def pruneForAgent (movesWithScore : List (Int × Move)) : List (Int × Move) :=
  match movesWithScore.getLast? with
  | none => movesWithScore
  | some b => movesWithScore.dropWhile (fun p => decide (p.1 < b.1 - 50))

/-- The pruning loop of `chooseBestMoveRecursive` (`part_001`) on the opponent
branch: `maxScore = movesWithScore.back().first + 50` is fixed first, then
elements are popped from the back while the last score exceeds it. -/
def pruneForOpponent (movesWithScore : List (Int × Move)) : List (Int × Move) :=
  match movesWithScore.getLast? with
  | none => movesWithScore
  | some b => ((movesWithScore.reverse).dropWhile (fun p => decide (p.1 > b.1 + 50))).reverse

/-- `operator<<(ostream, Cell)`: writes the character with code
`col + 'A'` and then the character with code `row + '1'`.  Characters are
modelled by their codes. -/
def printCell (cell : Cell) : Int × Int := (cell.col + 65, cell.row + 49)

/-- `operator>>(istream, Cell)`: `col = str[0] - 'A'`, `row = str[1] - '1'`. -/
def readCell (s : Int × Int) : Cell := ⟨s.2 - 49, s.1 - 65⟩

/-- `rowForPlayer`. -/
def rowForPlayer (col player : Int) : Int :=
  if player = 0 then col else FIELD_HEIGHT - 1 - col

/-- The entity-placement routine (`initializeEntities` in the source). -/
def placeEntities (f : Field) (player : Int) : Field :=
  let f := f.set ⟨rowForPlayer 0 player, 0⟩ (Entity.make player .ACROBAT false)
  let f := f.set ⟨rowForPlayer 1 player, 0⟩ (Entity.make player .CLOWN false)
  let f := f.set ⟨rowForPlayer 0 player, 1⟩ (Entity.make player .CLOWN true)
  let f := f.set ⟨rowForPlayer 1 player, 1⟩ (Entity.make player .MAGICIAN false)
  let f := f.set ⟨rowForPlayer 2 player, 0⟩ (Entity.make player .STRONGMAN false)
  let f := f.set ⟨rowForPlayer 0 player, 2⟩ (Entity.make player .STRONGMAN true)
  f.set ⟨rowForPlayer 3 player, 0⟩ (Entity.make player .TRAINER false)

/-- A default-constructed `Field`: empty containers, every grid cell holds
`NONE_ENTITY` and no house; the position index defaults to `NONE_CELL`. -/
def emptyField : Field :=
  { houses := []
    cellAt := fun _ => ⟨false, NONE_ENTITY⟩
    positions := fun _ => NONE_CELL
    freeHouses := []
    activeEntities := [] }

/-- One iteration of the house-reading loop in `operator>>(istream, State)`. -/
def addHouse (f : Field) (c : Cell) : Field :=
  { f with
    houses := c :: f.houses
    freeHouses := c :: f.freeHouses
    cellAt := fun x => if x = c then { f.cellAt c with hasHouse := true } else f.cellAt x }

/-- The contents of `activeEntities` after the setup loop inserts `i` and
`i | 0b1000` for `i = 0..6`. -/
def activeInit : List Int := [0, 8, 1, 9, 2, 10, 3, 11, 4, 12, 5, 13, 6, 14]

/-- The field built by `operator>>(istream, State)` from the 13 house cells:
houses are registered, all 14 entity ids are made active, and both players
get their initial placement. -/
def initField (houseCells : List Cell) : Field :=
  let f := houseCells.foldl addHouse emptyField
  let f := { f with activeEntities := activeInit }
  placeEntities (placeEntities f 0) 1

/-! Concrete boards used to evaluate the engine on specific inputs. -/

/-- A board holding only the player-0 strongman (id 2) at `(0,0)`; both
trainers are inactive and parked in a far corner, everything else is empty
and there are no houses. -/
def strongmanField : Field :=
  { houses := []
    cellAt := fun c =>
      if c = ⟨0, 0⟩ then ⟨false, Entity.make 0 .STRONGMAN false⟩ else ⟨false, NONE_ENTITY⟩
    positions := fun i =>
      if i = 2 then ⟨0, 0⟩ else if i = 6 then ⟨8, 11⟩ else if i = 14 then ⟨8, 10⟩ else NONE_CELL
    freeHouses := []
    activeEntities := [2] }

/-- A board holding only the player-0 acrobat (id 4) at `(4,4)`; both
trainers are inactive, everything else is empty and there are no houses. -/
def acrobatField : Field :=
  { houses := []
    cellAt := fun c =>
      if c = ⟨4, 4⟩ then ⟨false, Entity.make 0 .ACROBAT false⟩ else ⟨false, NONE_ENTITY⟩
    positions := fun i =>
      if i = 4 then ⟨4, 4⟩ else if i = 5 then ⟨8, 11⟩
      else if i = 6 then ⟨0, 11⟩ else if i = 14 then ⟨8, 0⟩ else NONE_CELL
    freeHouses := []
    activeEntities := [4] }

/-- The acrobat board wrapped in a `State` where it is the agent's turn. -/
def acrobatState : State :=
  { myPlayer := 0, field := acrobatField, doneSteps := 0, currentPlayer := 0 }

/-- A board where the player-0 clown (id 0) at `(3,3)` stands next to the
active player-1 trainer (id 14) at `(4,4)`. -/
def blockedClownField : Field :=
  { houses := []
    cellAt := fun c =>
      if c = ⟨3, 3⟩ then ⟨false, Entity.make 0 .CLOWN false⟩
      else if c = ⟨4, 4⟩ then ⟨false, Entity.make 1 .TRAINER false⟩
      else ⟨false, NONE_ENTITY⟩
    positions := fun i => if i = 0 then ⟨3, 3⟩ else if i = 14 then ⟨4, 4⟩ else NONE_CELL
    freeHouses := []
    activeEntities := [0, 14] }

/-- A state for the `part_001` evaluator: the player-0 clown (id 0) sits on a
house at `(0,5)` and the player-1 clown (id 8) sits on a house at `(0,7)`. -/
def housedClownsState : State :=
  { myPlayer := 0
    field :=
      { houses := [⟨0, 5⟩, ⟨0, 7⟩]
        cellAt := fun c =>
          if c = ⟨0, 5⟩ then ⟨true, Entity.make 0 .CLOWN false⟩
          else if c = ⟨0, 7⟩ then ⟨true, Entity.make 1 .CLOWN false⟩
          else ⟨false, NONE_ENTITY⟩
        positions := fun i => if i = 0 then ⟨0, 5⟩ else if i = 8 then ⟨0, 7⟩ else NONE_CELL
        freeHouses := []
        activeEntities := [] }
    doneSteps := 0
    currentPlayer := 0 }

/-- Thirteen house cells along the right edge, away from all start cells. -/
def sampleHouses : List Cell :=
  [⟨0, 11⟩, ⟨1, 11⟩, ⟨2, 11⟩, ⟨3, 11⟩, ⟨4, 11⟩, ⟨5, 11⟩, ⟨6, 11⟩, ⟨7, 11⟩, ⟨8, 11⟩,
    ⟨0, 10⟩, ⟨1, 10⟩, ⟨2, 10⟩, ⟨3, 10⟩]

/-- A degenerate move standing on one cell: always classified illegal. -/
def standMove : Move := ⟨⟨0, 0⟩, ⟨0, 0⟩⟩

/-! ### Claim C1 -/

/-- Claim C1 (refuted, code bug): `checkMove` classifies the move
`(0,0) -> (0,3)` of a lone strongman as `PUSH` although the target cell is
empty and lies at Chebyshev distance 3: the `PUSH` branch checks the cell
behind the target but never that the target is occupied or adjacent. -/
theorem C1_push_without_target :
    strongmanField.checkMove ⟨⟨0, 0⟩, ⟨0, 3⟩⟩ = MoveType.PUSH ∧
    (strongmanField.cellAt ⟨0, 3⟩).entity.type = EntityType.NONE_TYPE ∧
    ¬(|(0 : Int) - 0| ≤ 1 ∧ |(3 : Int) - 0| ≤ 1) := by
  decide

/-! ### Claim C2 -/

/-- Claim C2 (refuted, code bug): on the simulated opponent's turn the
pruning loop of `chooseBestMoveRecursive` compares the last (maximal) score
against `back() + 50` instead of against `front() + 50`, so for the sorted
candidate scores `[0, 1000]` nothing is discarded even though the candidate
scoring 1000 is not within 50 points of the minimum 0. -/
theorem C2_opponent_prune_keeps_all :
    pruneForOpponent [(0, NONE_MOVE), (1000, standMove)] = [(0, NONE_MOVE), (1000, standMove)] ∧
    ¬((1000 : Int) ≤ 0 + 50) := by
  decide

/-! ### Claim C4 -/

/-- Claim C4 as stated is false on `part_001`: with `housedClownsState`, the
friendly clown parked on a house contributes `+1000` while the enemy clown
parked on a house contributes `-150`, and the magnitudes 1000 and 150
differ. -/
theorem C4_house_scores_unequal :
    entityScoreP1 housedClownsState 0 = 1000 ∧
    entityScoreP1 housedClownsState 8 = -150 ∧
    ¬((1000 : Int) = |(-150 : Int)|) := by
  decide

/-- Claim C4 (amended): for every entity whose cell is a house the
contribution is a fixed per-side constant — `+1000` for the agent's entity
and `-150` for an opponent entity in `part_001` (unequal magnitudes), and
`+50` / `-50` (equal magnitudes) in `main.cpp`. -/
theorem C4_house_term (s : State) (entityId : Int)
    (h : (s.field.cellAt (s.field.positions entityId)).hasHouse = true) :
    entityScoreP1 s entityId =
      (if (Entity.ofId entityId).ownerId = s.myPlayer then SCORE_FOR_CAPTURED_HOUSE
       else SCORE_FOR_LOST_HOUSE) ∧
    entityScoreMain s entityId =
      (if (Entity.ofId entityId).ownerId = s.myPlayer then 50 else -50) := by
  unfold entityScoreP1 entityScoreMain
  simp only [h, if_true, Entity.ofId]
  exact ⟨trivial, trivial⟩

/-- Witness for `C4_house_term` at `housedClownsState` and entity id 0. -/
theorem C4_house_term_witness :
    entityScoreP1 housedClownsState 0 =
      (if (Entity.ofId 0).ownerId = housedClownsState.myPlayer then SCORE_FOR_CAPTURED_HOUSE
       else SCORE_FOR_LOST_HOUSE) ∧
    entityScoreMain housedClownsState 0 =
      (if (Entity.ofId 0).ownerId = housedClownsState.myPlayer then 50 else -50) :=
  C4_house_term housedClownsState 0 (by decide)

/-! ### Claim C5 -/

/-- Claim C5 as stated is false on the `part_001` variant: its
`Field::doMove` has an empty `ILLEGAL_MOVE` branch, so applying the illegal
move `(0,0) -> (0,0)` is silently accepted and leaves the board unchanged
instead of failing. -/
theorem C5_silent_illegal_accept :
    strongmanField.checkMove standMove = MoveType.ILLEGAL_MOVE ∧
    strongmanField.doMoveQuiet standMove = strongmanField :=
  ⟨by decide, rfl⟩

/-- Claim C5 (amended): applying a move classified `ILLEGAL_MOVE` is a
defined failure (a fatal assertion, modelled by `none`) in `main.cpp`; in
the `part_001` variant the illegal branch is an empty no-op, so the move is
silently ignored and the board returned unchanged. -/
theorem C5_doMove_illegal (f : Field) (move : Move)
    (h : f.checkMove move = MoveType.ILLEGAL_MOVE) :
    f.doMove move = none ∧ f.doMoveQuiet move = f := by
  unfold Field.doMove Field.doMoveQuiet
  rw [h]
  exact ⟨rfl, rfl⟩

/-- Witness for `C5_doMove_illegal` on the strongman board. -/
theorem C5_doMove_illegal_witness :
    strongmanField.doMove standMove = none ∧
    strongmanField.doMoveQuiet standMove = strongmanField :=
  C5_doMove_illegal strongmanField standMove (by decide)

/-! ### Claim C6 -/

/-- Claim C6 as stated is false: the printer writes the letter from the
column and the digit from the row, so the cell with row 2 and column 0 is
printed as codes `('A', '3')`, not `('A' + row, '1' + col) = ('C', '1')`;
the reader likewise assigns the letter to the column. -/
theorem C6_encoding_swapped :
    printCell ⟨2, 0⟩ = (65, 51) ∧
    printCell ⟨2, 0⟩ ≠ (65 + 2, 49 + 0) ∧
    readCell (65, 51) = (⟨2, 0⟩ : Cell) := by
  decide

/-- Claim C6 (amended): a cell is encoded with the letter carrying the
column (`'A' + col`) and the digit carrying the row (`'1' + row`); the
reader inverts exactly this, so printing then parsing any in-bounds cell
round-trips. -/
theorem C6_roundtrip (c : Cell) (h : c.isInFieldBounds = true) :
    readCell (printCell c) = c ∧ printCell c = (c.col + 65, c.row + 49) := by
  obtain ⟨r, cl⟩ := c
  refine ⟨?_, rfl⟩
  simp only [printCell, readCell, Cell.mk.injEq]
  omega

/-- Witness for `C6_roundtrip` at the in-bounds cell `(0,0)`. -/
theorem C6_roundtrip_witness :
    readCell (printCell ⟨0, 0⟩) = (⟨0, 0⟩ : Cell) ∧
    printCell ⟨0, 0⟩ = ((0 : Int) + 65, (0 : Int) + 49) :=
  C6_roundtrip ⟨0, 0⟩ (by decide)

/-! ### Helper lemmas about the move enumerator -/

/-- Anything `addMoveIfLegal` emits is the offered move, and that move is
not classified illegal. -/
theorem mem_addMoveIfLegal (state : State) (move m : Move) (addSwaps : Bool)
    (h : m ∈ addMoveIfLegal state move addSwaps) :
    m = move ∧ state.field.checkMove move ≠ MoveType.ILLEGAL_MOVE := by
  unfold addMoveIfLegal at h
  split at h <;> simp_all

/-- If the offered move is classified `BASE_MOVE`, `PUSH`, `DOUBLE_MOVE` or
`NO_MOVE`, `addMoveIfLegal` emits it. -/
theorem addMoveIfLegal_self (state : State) (move : Move) (addSwaps : Bool)
    (h : state.field.checkMove move = MoveType.BASE_MOVE ∨
         state.field.checkMove move = MoveType.DOUBLE_MOVE ∨
         state.field.checkMove move = MoveType.PUSH ∨
         state.field.checkMove move = MoveType.NO_MOVE) :
    move ∈ addMoveIfLegal state move addSwaps := by
  unfold addMoveIfLegal
  rcases h with h | h | h | h <;> rw [h] <;> simp

/-- The sentinel move is always classified `NO_MOVE`. -/
theorem checkMove_none_move (f : Field) : f.checkMove NONE_MOVE = MoveType.NO_MOVE := by
  unfold Field.checkMove
  simp

/-- Every move emitted by `allAvailableMoves` is not classified illegal. -/
theorem allAvailableMoves_not_illegal (state : State) (m : Move)
    (h : m ∈ allAvailableMoves state) :
    state.field.checkMove m ≠ MoveType.ILLEGAL_MOVE := by
  unfold allAvailableMoves at h
  simp only [List.mem_append, List.mem_flatMap, List.mem_singleton] at h
  rcases h with ((⟨id, _, hin⟩ | ⟨dRow, _, dCol, _, hin⟩) | ⟨id, _, hin⟩) | rfl
  · split at hin
    · simp at hin
    · simp only [List.mem_flatMap] at hin
      obtain ⟨dRow, _, dCol, _, hin⟩ := hin
      obtain ⟨rfl, hleg⟩ := mem_addMoveIfLegal _ _ _ _ hin
      exact hleg
  · obtain ⟨rfl, hleg⟩ := mem_addMoveIfLegal _ _ _ _ hin
    exact hleg
  · obtain ⟨rfl, hleg⟩ := mem_addMoveIfLegal _ _ _ _ hin
    exact hleg
  · rw [checkMove_none_move]
    simp

/-! ### Claim C10 -/

/-- Claim C10: every move returned by `allAvailableMoves` is classified by
`checkMove` on the same state as something other than `ILLEGAL_MOVE`
(i.e. one of Pass/Base/Double/Swap/Push), so applying an enumerated move
with `main.cpp`'s `doMove` never reaches the illegal-move assertion. -/
theorem C10_enumerator_sound (state : State) (m : Move)
    (h : m ∈ allAvailableMoves state) :
    state.field.checkMove m ≠ MoveType.ILLEGAL_MOVE ∧
    (state.field.doMove m).isSome = true := by
  have hleg := allAvailableMoves_not_illegal state m h
  refine ⟨hleg, ?_⟩
  unfold Field.doMove
  cases hcm : state.field.checkMove m <;> simp_all

/-- Witness for `C10_enumerator_sound` on the acrobat board with the Pass
move. -/
theorem C10_enumerator_sound_witness :
    acrobatState.field.checkMove NONE_MOVE ≠ MoveType.ILLEGAL_MOVE ∧
    (acrobatState.field.doMove NONE_MOVE).isSome = true :=
  C10_enumerator_sound acrobatState NONE_MOVE (by decide)

/-! ### Claim C3 -/

/-- Claim C3 as stated is false: on the acrobat board the jump
`(4,4) -> (4,6)` is classified `DOUBLE_MOVE` (legal, by an entity of the
current player), yet it does not appear in `allAvailableMoves` — the
dedicated acrobat rescan uses the same `-1..1` offsets as the general scan,
so no distance-2 move is ever generated. -/
theorem C3_double_move_missing :
    acrobatState.field.checkMove ⟨⟨4, 4⟩, ⟨4, 6⟩⟩ = MoveType.DOUBLE_MOVE ∧
    (acrobatState.field.cellAt ⟨4, 4⟩).entity.ownerId = acrobatState.currentPlayer ∧
    (acrobatState.field.cellAt ⟨4, 4⟩).entity.type ≠ EntityType.NONE_TYPE ∧
    (⟨⟨4, 4⟩, ⟨4, 6⟩⟩ : Move) ∉ allAvailableMoves acrobatState := by
  decide

/-- Claim C3 (amended): `allAvailableMoves` always contains the Pass move,
and it contains every move from an active entity of the current player to a
cell at offsets `dRow, dCol ∈ [-1, 1]` that `checkMove` classifies as
`BASE_MOVE`, `DOUBLE_MOVE`, `PUSH` or `NO_MOVE`.  (Distance-2 acrobat
double moves and swaps are never generated.) -/
theorem C3_neighbor_coverage (s : State) :
    NONE_MOVE ∈ allAvailableMoves s ∧
    ∀ (id dRow dCol : Int),
      s.field.activeEntities.contains id = true →
      (Entity.ofId id).ownerId = s.currentPlayer →
      -1 ≤ dRow → dRow ≤ 1 → -1 ≤ dCol → dCol ≤ 1 →
      (s.field.checkMove ⟨s.field.positions id,
          ⟨(s.field.positions id).row + dRow, (s.field.positions id).col + dCol⟩⟩ =
            MoveType.BASE_MOVE ∨
        s.field.checkMove ⟨s.field.positions id,
          ⟨(s.field.positions id).row + dRow, (s.field.positions id).col + dCol⟩⟩ =
            MoveType.DOUBLE_MOVE ∨
        s.field.checkMove ⟨s.field.positions id,
          ⟨(s.field.positions id).row + dRow, (s.field.positions id).col + dCol⟩⟩ =
            MoveType.PUSH ∨
        s.field.checkMove ⟨s.field.positions id,
          ⟨(s.field.positions id).row + dRow, (s.field.positions id).col + dCol⟩⟩ =
            MoveType.NO_MOVE) →
      (⟨s.field.positions id,
          ⟨(s.field.positions id).row + dRow, (s.field.positions id).col + dCol⟩⟩ : Move) ∈
        allAvailableMoves s := by
  constructor
  · unfold allAvailableMoves
    simp
  · intro id dRow dCol hactive hown hr1 hr2 hc1 hc2 hleg
    unfold allAvailableMoves
    refine List.mem_append.mpr (Or.inl (List.mem_append.mpr (Or.inl (List.mem_append.mpr
      (Or.inl ?_)))))
    refine List.mem_flatMap.mpr ⟨id, List.elem_iff.mp hactive, ?_⟩
    rw [if_neg (by simpa using hown)]
    have hdr : dRow ∈ offsets := by
      have : dRow = -1 ∨ dRow = 0 ∨ dRow = 1 := by omega
      rcases this with rfl | rfl | rfl <;> simp [offsets]
    have hdc : dCol ∈ offsets := by
      have : dCol = -1 ∨ dCol = 0 ∨ dCol = 1 := by omega
      rcases this with rfl | rfl | rfl <;> simp [offsets]
    exact List.mem_flatMap.mpr ⟨dRow, hdr, List.mem_flatMap.mpr ⟨dCol, hdc,
      addMoveIfLegal_self s _ false hleg⟩⟩

/-- Witness for `C3_neighbor_coverage`: the base step `(4,4) -> (4,5)` of
the acrobat is enumerated. -/
theorem C3_neighbor_coverage_witness :
    (⟨acrobatState.field.positions 4,
      ⟨(acrobatState.field.positions 4).row + 0,
        (acrobatState.field.positions 4).col + 1⟩⟩ : Move) ∈
      allAvailableMoves acrobatState :=
  (C3_neighbor_coverage acrobatState).2 4 0 1 (by decide) (by decide) (by decide) (by decide)
    (by decide) (by decide) (by decide)

/-! ### Claim C7 -/

/-- Claim C7: if the trainer of the moving entity's opponent is active, then
every move whose source or target endpoint is a non-house cell within
Chebyshev distance 1 of that trainer's cell (which is on the board) is
classified `ILLEGAL_MOVE`. -/
theorem C7_trainer_blocking (f : Field) (m : Move)
    (htype : (f.cellAt m.from').entity.type ≠ EntityType.NONE_TYPE)
    (hown : (f.cellAt m.from').entity.ownerId = 0 ∨ (f.cellAt m.from').entity.ownerId = 1)
    (hactive : f.activeEntities.contains (f.enemyTrainerId m) = true)
    (hT : (f.positions (f.enemyTrainerId m)).isInFieldBounds = true)
    (hblock :
      (Field.isBlockedByTrainer m.from' (f.positions (f.enemyTrainerId m)) = true ∧
        (f.cellAt m.from').hasHouse = false) ∨
      (Field.isBlockedByTrainer m.to' (f.positions (f.enemyTrainerId m)) = true ∧
        (f.cellAt m.to').hasHouse = false)) :
    f.checkMove m = MoveType.ILLEGAL_MOVE := by
  unfold Field.checkMove
  by_cases h1 : m = NONE_MOVE
  · exfalso
    subst h1
    rcases hblock with ⟨hb, _⟩ | ⟨hb, _⟩ <;>
      (simp only [NONE_MOVE, NONE_CELL, Field.isBlockedByTrainer, Bool.and_eq_true,
        decide_eq_true_eq, abs_le, Cell.isInFieldBounds, FIELD_WIDTH, FIELD_HEIGHT] at hb hT
       omega)
  rw [if_neg h1]
  by_cases h2 : m.from' = m.to'
  · rw [if_pos h2]
  rw [if_neg h2]
  by_cases h3 : (!m.from'.isInFieldBounds || !m.to'.isInFieldBounds) = true
  · rw [if_pos h3]
  rw [if_neg h3]
  by_cases h4 : (f.cellAt m.from').hasHouse = true
  · rw [if_pos h4]
  rw [if_neg h4]
  by_cases h5 : (f.cellAt m.to').hasHouse = true ∧
      (f.cellAt m.to').entity.type ≠ EntityType.NONE_TYPE
  · rw [if_pos h5]
  rw [if_neg h5]
  by_cases h6 : (f.cellAt m.from').entity.type = EntityType.NONE_TYPE
  · rw [if_pos h6]
  rw [if_neg h6]
  by_cases h7 : f.activeEntities.contains (f.enemyTrainerId m) = true ∧
      Field.isBlockedByTrainer m.from' (f.positions (f.enemyTrainerId m)) = true
  · rw [if_pos h7]
  rw [if_neg h7]
  by_cases h8 : f.activeEntities.contains (f.enemyTrainerId m) = true ∧
      Field.isBlockedByTrainer m.to' (f.positions (f.enemyTrainerId m)) = true
  · rw [if_pos h8]
  rw [if_neg h8]
  exfalso
  rcases hblock with ⟨hb, _⟩ | ⟨hb, _⟩
  · exact h7 ⟨hactive, hb⟩
  · exact h8 ⟨hactive, hb⟩

/-- Witness for `C7_trainer_blocking`: the clown at `(3,3)` cannot step to
`(2,2)` while the enemy trainer sits at `(4,4)`. -/
theorem C7_trainer_blocking_witness :
    blockedClownField.checkMove ⟨⟨3, 3⟩, ⟨2, 2⟩⟩ = MoveType.ILLEGAL_MOVE :=
  C7_trainer_blocking blockedClownField ⟨⟨3, 3⟩, ⟨2, 2⟩⟩ (by decide) (by decide) (by decide)
    (by decide) (by decide)

/-! ### Helper lemmas about the mutators -/

theorem contains_of_contains_filter {α : Type} [BEq α] [LawfulBEq α] (l : List α)
    (p : α → Bool) (x : α) (h : (l.filter p).contains x = true) : l.contains x = true := by
  rw [List.elem_iff] at h ⊢
  exact (List.mem_filter.mp h).1

theorem freeHouses_baseOrDoubleMove (f : Field) (m : Move) (c : Cell)
    (h : (f.baseOrDoubleMove m).freeHouses.contains c = true) :
    f.freeHouses.contains c = true := by
  simp only [Field.baseOrDoubleMove] at h
  split at h
  · exact contains_of_contains_filter _ _ _ h
  · exact h

theorem active_baseOrDoubleMove (f : Field) (m : Move) (i : Int)
    (h : (f.baseOrDoubleMove m).activeEntities.contains i = true) :
    f.activeEntities.contains i = true := by
  simp only [Field.baseOrDoubleMove] at h
  split at h
  · exact contains_of_contains_filter _ _ _ h
  · exact h

theorem freeHouses_swapMove (f : Field) (m : Move) :
    (f.swapMove m).freeHouses = f.freeHouses := rfl

theorem active_swapMove (f : Field) (m : Move) :
    (f.swapMove m).activeEntities = f.activeEntities := rfl

theorem freeHouses_pushMove (f : Field) (m : Move) (c : Cell)
    (h : (f.pushMove m).freeHouses.contains c = true) :
    f.freeHouses.contains c = true := by
  simp only [Field.pushMove] at h
  split at h
  · exact contains_of_contains_filter _ _ _ h
  · exact h

theorem active_pushMove (f : Field) (m : Move) (i : Int)
    (h : (f.pushMove m).activeEntities.contains i = true) :
    f.activeEntities.contains i = true := by
  simp only [Field.pushMove] at h
  split at h
  · exact contains_of_contains_filter _ _ _ h
  · exact h

theorem freeHouses_doMoveQuiet (f : Field) (m : Move) (c : Cell)
    (h : (f.doMoveQuiet m).freeHouses.contains c = true) :
    f.freeHouses.contains c = true := by
  unfold Field.doMoveQuiet at h
  split at h
  · exact h
  · exact h
  · exact freeHouses_baseOrDoubleMove f m c h
  · exact freeHouses_baseOrDoubleMove f m c h
  · rw [freeHouses_swapMove] at h; exact h
  · exact freeHouses_pushMove f m c h

theorem active_doMoveQuiet (f : Field) (m : Move) (i : Int)
    (h : (f.doMoveQuiet m).activeEntities.contains i = true) :
    f.activeEntities.contains i = true := by
  unfold Field.doMoveQuiet at h
  split at h
  · exact h
  · exact h
  · exact active_baseOrDoubleMove f m i h
  · exact active_baseOrDoubleMove f m i h
  · rw [active_swapMove] at h; exact h
  · exact active_pushMove f m i h

theorem freeHouses_applyMoves (f : Field) (ms : List Move) (c : Cell)
    (h : (f.applyMoves ms).freeHouses.contains c = true) :
    f.freeHouses.contains c = true := by
  induction ms generalizing f with
  | nil => exact h
  | cons m ms ih => exact freeHouses_doMoveQuiet f m c (ih (f.doMoveQuiet m) h)

theorem active_applyMoves (f : Field) (ms : List Move) (i : Int)
    (h : (f.applyMoves ms).activeEntities.contains i = true) :
    f.activeEntities.contains i = true := by
  induction ms generalizing f with
  | nil => exact h
  | cons m ms ih => exact active_doMoveQuiet f m i (ih (f.doMoveQuiet m) h)

/-! ### Claim C8 -/

/-- Claim C8: over any sequence of applied moves the free-house set and the
active-entity set only shrink, an id absent from the active set never
reappears in it, and the same shrinking holds for every successful
application through `main.cpp`'s `doMove`. -/
theorem C8_monotonicity (f : Field) (ms : List Move) :
    (∀ c, (f.applyMoves ms).freeHouses.contains c = true → f.freeHouses.contains c = true) ∧
    (∀ i, (f.applyMoves ms).activeEntities.contains i = true →
      f.activeEntities.contains i = true) ∧
    (∀ i, f.activeEntities.contains i = false →
      (f.applyMoves ms).activeEntities.contains i = false) ∧
    (∀ m f', f.doMove m = some f' →
      (∀ c, f'.freeHouses.contains c = true → f.freeHouses.contains c = true) ∧
      (∀ i, f'.activeEntities.contains i = true → f.activeEntities.contains i = true)) := by
  refine ⟨fun c h => freeHouses_applyMoves f ms c h,
    fun i h => active_applyMoves f ms i h,
    fun i h => ?_, fun m f' h => ?_⟩
  · by_contra hcon
    rw [Bool.not_eq_false] at hcon
    rw [active_applyMoves f ms i hcon] at h
    cases h
  · have hq : f' = f.doMoveQuiet m := by
      unfold Field.doMove at h
      unfold Field.doMoveQuiet
      split at h <;> cases h <;> rfl
    subst hq
    exact ⟨fun c hc => freeHouses_doMoveQuiet f m c hc,
      fun i hi => active_doMoveQuiet f m i hi⟩

/-- Witness for `C8_monotonicity` on the initial board with a single applied
base move. -/
theorem C8_monotonicity_witness :
    (initField sampleHouses).freeHouses.contains ⟨0, 11⟩ = true :=
  (C8_monotonicity (initField sampleHouses) [⟨⟨1, 0⟩, ⟨2, 1⟩⟩]).1 ⟨0, 11⟩ (by decide)

/-! ### Helper lemmas about `set` and `clear` -/

theorem cellAt_set_self (f : Field) (cell : Cell) (e : Entity) :
    (f.set cell e).cellAt cell = { f.cellAt cell with entity := e } := if_pos rfl

theorem cellAt_set_ne (f : Field) (cell : Cell) (e : Entity) (x : Cell) (h : x ≠ cell) :
    (f.set cell e).cellAt x = f.cellAt x := if_neg h

theorem cellAt_clear_self (f : Field) (cell : Cell) :
    (f.clear cell).cellAt cell = { f.cellAt cell with entity := NONE_ENTITY } := if_pos rfl

theorem cellAt_clear_ne (f : Field) (cell : Cell) (x : Cell) (h : x ≠ cell) :
    (f.clear cell).cellAt x = f.cellAt x := if_neg h

theorem positions_set_self (f : Field) (cell : Cell) (e : Entity) :
    (f.set cell e).positions e.id = cell := if_pos rfl

theorem positions_set_ne (f : Field) (cell : Cell) (e : Entity) (i : Int) (h : i ≠ e.id) :
    (f.set cell e).positions i = f.positions i := if_neg h

theorem positions_clear (f : Field) (cell : Cell) (i : Int) :
    (f.clear cell).positions i = f.positions i := rfl

/-- Inversion of `checkMove`: the facts about the board that each
move-applying classification guarantees. -/
theorem checkMove_apply_facts (f : Field) (m : Move) :
    (f.checkMove m = MoveType.BASE_MOVE →
      m.from' ≠ m.to' ∧ (f.cellAt m.from').entity.type ≠ EntityType.NONE_TYPE ∧
        (f.cellAt m.to').entity.type = EntityType.NONE_TYPE) ∧
    (f.checkMove m = MoveType.DOUBLE_MOVE →
      m.from' ≠ m.to' ∧ (f.cellAt m.from').entity.type ≠ EntityType.NONE_TYPE ∧
        (f.cellAt m.to').entity.type = EntityType.NONE_TYPE) ∧
    (f.checkMove m = MoveType.SWAP →
      m.from' ≠ m.to' ∧ (f.cellAt m.from').entity.type ≠ EntityType.NONE_TYPE ∧
        (f.cellAt m.to').entity.type ≠ EntityType.NONE_TYPE) ∧
    (f.checkMove m = MoveType.PUSH →
      m.from' ≠ m.to' ∧ (f.cellAt m.from').entity.type ≠ EntityType.NONE_TYPE ∧
        (f.cellAt m.nextCell).entity.type = EntityType.NONE_TYPE) := by
  unfold Field.checkMove
  by_cases h1 : m = NONE_MOVE
  · rw [if_pos h1]; simp
  rw [if_neg h1]
  by_cases h2 : m.from' = m.to'
  · rw [if_pos h2]; simp
  rw [if_neg h2]
  by_cases h3 : (!m.from'.isInFieldBounds || !m.to'.isInFieldBounds) = true
  · rw [if_pos h3]; simp
  rw [if_neg h3]
  by_cases h4 : (f.cellAt m.from').hasHouse = true
  · rw [if_pos h4]; simp
  rw [if_neg h4]
  by_cases h5 : (f.cellAt m.to').hasHouse = true ∧
      (f.cellAt m.to').entity.type ≠ EntityType.NONE_TYPE
  · rw [if_pos h5]; simp
  rw [if_neg h5]
  by_cases h6 : (f.cellAt m.from').entity.type = EntityType.NONE_TYPE
  · rw [if_pos h6]; simp
  rw [if_neg h6]
  by_cases h7 : f.activeEntities.contains (f.enemyTrainerId m) = true ∧
      Field.isBlockedByTrainer m.from' (f.positions (f.enemyTrainerId m)) = true
  · rw [if_pos h7]; simp
  rw [if_neg h7]
  by_cases h8 : f.activeEntities.contains (f.enemyTrainerId m) = true ∧
      Field.isBlockedByTrainer m.to' (f.positions (f.enemyTrainerId m)) = true
  · rw [if_pos h8]; simp
  rw [if_neg h8]
  by_cases h9 : (f.cellAt m.to').entity.type = EntityType.NONE_TYPE ∧
      (if (f.cellAt m.to').hasHouse = true then
        |m.to'.col - m.from'.col| + |m.to'.row - m.from'.row| = 1
      else
        |m.to'.row - m.from'.row| ≤ 1 ∧ |m.to'.col - m.from'.col| ≤ 1)
  · rw [if_pos h9]
    exact ⟨fun _ => ⟨h2, h6, h9.1⟩, fun h => absurd h (by decide),
      fun h => absurd h (by decide), fun h => absurd h (by decide)⟩
  rw [if_neg h9]
  cases hty : (f.cellAt m.from').entity.type
  -- CLOWN
  · simp
  -- STRONGMAN
  · by_cases hS : m.nextCell.isInFieldBounds = true ∧
        (f.cellAt m.nextCell).entity.type = EntityType.NONE_TYPE ∧
        (¬(f.cellAt m.nextCell).hasHouse = true ∨
          (m.to'.col - m.from'.col = 0 ∨ m.to'.row - m.from'.row = 0)) ∧
        (¬f.activeEntities.contains (f.enemyTrainerId m) = true ∨
          ¬Field.isBlockedByTrainer m.nextCell (f.positions (f.enemyTrainerId m)) = true)
    · rw [if_pos hS]
      exact ⟨fun h => absurd h (show MoveType.PUSH ≠ MoveType.BASE_MOVE by decide),
        fun h => absurd h (show MoveType.PUSH ≠ MoveType.DOUBLE_MOVE by decide),
        fun h => absurd h (show MoveType.PUSH ≠ MoveType.SWAP by decide),
        fun _ => ⟨h2, by decide, hS.2.1⟩⟩
    · rw [if_neg hS]
      simp
  -- ACROBAT
  · by_cases hA1 : (f.cellAt m.to').entity.type = EntityType.NONE_TYPE ∧
        (m.to'.col - m.from'.col = 0 ∨ m.to'.row - m.from'.row = 0) ∧
        |m.to'.col - m.from'.col| + |m.to'.row - m.from'.row| = 2
    · rw [if_pos hA1]
      exact ⟨fun h => absurd h (show MoveType.DOUBLE_MOVE ≠ MoveType.BASE_MOVE by decide),
        fun _ => ⟨h2, by decide, hA1.1⟩,
        fun h => absurd h (show MoveType.DOUBLE_MOVE ≠ MoveType.SWAP by decide),
        fun h => absurd h (show MoveType.DOUBLE_MOVE ≠ MoveType.PUSH by decide)⟩
    rw [if_neg hA1]
    by_cases hA2 : (f.cellAt m.to').entity.type = EntityType.NONE_TYPE ∧
        ¬(f.cellAt m.to').hasHouse = true ∧
        (|m.to'.row - m.from'.row| = 2 ∧ |m.to'.col - m.from'.col| = 2)
    · rw [if_pos hA2]
      exact ⟨fun h => absurd h (show MoveType.DOUBLE_MOVE ≠ MoveType.BASE_MOVE by decide),
        fun _ => ⟨h2, by decide, hA2.1⟩,
        fun h => absurd h (show MoveType.DOUBLE_MOVE ≠ MoveType.SWAP by decide),
        fun h => absurd h (show MoveType.DOUBLE_MOVE ≠ MoveType.PUSH by decide)⟩
    · rw [if_neg hA2]
      simp
  -- MAGICIAN
  · by_cases hM : (f.cellAt m.to').entity.type ≠ EntityType.NONE_TYPE ∧
        ((f.cellAt m.to').entity.ownerId = (f.cellAt m.from').entity.ownerId ∨
          ((f.cellAt m.to').entity.type ≠ EntityType.TRAINER ∧
            (f.cellAt m.to').entity.type ≠ EntityType.MAGICIAN))
    · rw [if_pos hM]
      exact ⟨fun h => absurd h (show MoveType.SWAP ≠ MoveType.BASE_MOVE by decide),
        fun h => absurd h (show MoveType.SWAP ≠ MoveType.DOUBLE_MOVE by decide),
        fun _ => ⟨h2, by decide, hM.1⟩,
        fun h => absurd h (show MoveType.SWAP ≠ MoveType.PUSH by decide)⟩
    · rw [if_neg hM]
      simp
  -- TRAINER
  · simp
  -- NONE_TYPE
  · exact absurd hty h6

/-! ### The grid / position-index / active-set consistency invariant -/

/-- Consistency of the dual representation: every active id is on the grid
at its indexed cell (with a nonnegative id), every occupied grid cell is
indexed back to itself, and a cell without a real entity holds exactly
`NONE_ENTITY`. -/
def Inv (f : Field) : Prop :=
  (∀ id : Int, f.activeEntities.contains id = true →
    (f.cellAt (f.positions id)).entity.id = id ∧
    (f.cellAt (f.positions id)).entity.type ≠ EntityType.NONE_TYPE ∧
    0 ≤ id) ∧
  (∀ c : Cell, (f.cellAt c).entity.type ≠ EntityType.NONE_TYPE →
    f.positions ((f.cellAt c).entity.id) = c ∧ 0 ≤ (f.cellAt c).entity.id) ∧
  (∀ c : Cell, (f.cellAt c).entity.type = EntityType.NONE_TYPE →
    (f.cellAt c).entity = NONE_ENTITY)

/-- Replacing the two set fields by filtered versions preserves `Inv`. -/
theorem Inv_filter_lists (f : Field) (p : Int → Bool) (q : Cell → Bool) (h : Inv f) :
    Inv { f with activeEntities := f.activeEntities.filter p,
                 freeHouses := f.freeHouses.filter q } := by
  obtain ⟨hA, hC, hN⟩ := h
  exact ⟨fun id hid => hA id (contains_of_contains_filter _ _ _ hid), hC, hN⟩

/-- `Inv` is preserved by `baseOrDoubleMove` under the facts guaranteed by a
`BASE_MOVE`/`DOUBLE_MOVE` classification. -/
theorem Inv_baseOrDoubleMove (f : Field) (m : Move)
    (hft : m.from' ≠ m.to')
    (hfe : (f.cellAt m.from').entity.type ≠ EntityType.NONE_TYPE)
    (hte : (f.cellAt m.to').entity.type = EntityType.NONE_TYPE)
    (hinv : Inv f) : Inv (f.baseOrDoubleMove m) := by
  obtain ⟨hA, hC, hN⟩ := hinv
  obtain ⟨hCf1, hCf2⟩ := hC m.from' hfe
  have hmain : Inv ((f.clear m.from').set m.to' (f.cellAt m.from').entity) := by
    refine ⟨?_, ?_, ?_⟩
    · -- active ids stay consistent
      intro id hid
      obtain ⟨ha1, ha2, ha3⟩ := hA id hid
      by_cases hide : id = (f.cellAt m.from').entity.id
      · subst hide
        rw [positions_set_self, cellAt_set_self]
        exact ⟨rfl, hfe, ha3⟩
      · have hpos : ((f.clear m.from').set m.to' (f.cellAt m.from').entity).positions id =
            f.positions id := by
          rw [positions_set_ne _ _ _ _ hide, positions_clear]
        have hne_to : f.positions id ≠ m.to' := by
          intro hEq
          rw [hEq] at ha2
          exact ha2 hte
        have hne_from : f.positions id ≠ m.from' := by
          intro hEq
          rw [hEq] at ha1
          exact hide ha1.symm
        rw [hpos, cellAt_set_ne _ _ _ _ hne_to, cellAt_clear_ne _ _ _ hne_from]
        exact ⟨ha1, ha2, ha3⟩
    · -- occupied cells stay indexed
      intro c hc
      by_cases hcto : c = m.to'
      · subst hcto
        rw [cellAt_set_self]
        exact ⟨positions_set_self _ _ _, hCf2⟩
      · by_cases hcfrom : c = m.from'
        · subst hcfrom
          rw [cellAt_set_ne _ _ _ _ hft, cellAt_clear_self] at hc
          exact absurd rfl hc
        · rw [cellAt_set_ne _ _ _ _ hcto, cellAt_clear_ne _ _ _ hcfrom] at hc ⊢
          obtain ⟨hc1, hc2⟩ := hC c hc
          have hne : (f.cellAt c).entity.id ≠ (f.cellAt m.from').entity.id := by
            intro hEq
            rw [hEq, hCf1] at hc1
            exact hcfrom hc1.symm
          rw [positions_set_ne _ _ _ _ hne, positions_clear]
          exact ⟨hc1, hc2⟩
    · -- empty cells hold the none entity
      intro c hc
      by_cases hcto : c = m.to'
      · subst hcto
        rw [cellAt_set_self] at hc
        exact absurd hc hfe
      · by_cases hcfrom : c = m.from'
        · subst hcfrom
          rw [cellAt_set_ne _ _ _ _ hft, cellAt_clear_self]
        · rw [cellAt_set_ne _ _ _ _ hcto, cellAt_clear_ne _ _ _ hcfrom] at hc ⊢
          exact hN c hc
  unfold Field.baseOrDoubleMove
  by_cases hh : ((((f.clear m.from').set m.to' (f.cellAt m.from').entity)).cellAt
      m.to').hasHouse = true
  · rw [if_pos hh]
    exact Inv_filter_lists _ _ _ hmain
  · rw [if_neg hh]
    exact hmain

/-- `Inv` is preserved by `swapMove` under the facts guaranteed by a `SWAP`
classification. -/
theorem Inv_swapMove (f : Field) (m : Move)
    (hft : m.from' ≠ m.to')
    (hfe : (f.cellAt m.from').entity.type ≠ EntityType.NONE_TYPE)
    (hta : (f.cellAt m.to').entity.type ≠ EntityType.NONE_TYPE)
    (hinv : Inv f) : Inv (f.swapMove m) := by
  obtain ⟨hA, hC, hN⟩ := hinv
  obtain ⟨hCf1, hCf2⟩ := hC m.from' hfe
  obtain ⟨hCt1, hCt2⟩ := hC m.to' hta
  have hMA : (f.cellAt m.from').entity.id ≠ (f.cellAt m.to').entity.id := by
    intro hEq
    apply hft
    rw [← hCf1, hEq, hCt1]
  unfold Field.swapMove
  refine ⟨?_, ?_, ?_⟩
  · intro id hid
    obtain ⟨ha1, ha2, ha3⟩ := hA id hid
    by_cases hidA : id = (f.cellAt m.to').entity.id
    · subst hidA
      rw [positions_set_self, cellAt_set_self]
      exact ⟨rfl, hta, ha3⟩
    · by_cases hidM : id = (f.cellAt m.from').entity.id
      · subst hidM
        rw [positions_set_ne _ _ _ _ hMA, positions_set_self,
          cellAt_set_ne _ _ _ _ (Ne.symm hft), cellAt_set_self]
        exact ⟨rfl, hfe, ha3⟩
      · have hne_from : f.positions id ≠ m.from' := fun hEq => by
          rw [hEq] at ha1; exact hidM ha1.symm
        have hne_to : f.positions id ≠ m.to' := fun hEq => by
          rw [hEq] at ha1; exact hidA ha1.symm
        rw [positions_set_ne _ _ _ _ hidA, positions_set_ne _ _ _ _ hidM,
          cellAt_set_ne _ _ _ _ hne_from, cellAt_set_ne _ _ _ _ hne_to]
        exact ⟨ha1, ha2, ha3⟩
  · intro c hc
    by_cases hcf : c = m.from'
    · subst hcf
      rw [cellAt_set_self]
      exact ⟨positions_set_self _ _ _, hCt2⟩
    · by_cases hct : c = m.to'
      · subst hct
        rw [cellAt_set_ne _ _ _ _ (Ne.symm hft), cellAt_set_self]
        refine ⟨?_, hCf2⟩
        rw [positions_set_ne _ _ _ _ hMA, positions_set_self]
      · rw [cellAt_set_ne _ _ _ _ hcf, cellAt_set_ne _ _ _ _ hct] at hc ⊢
        obtain ⟨hc1, hc2⟩ := hC c hc
        have hne1 : (f.cellAt c).entity.id ≠ (f.cellAt m.to').entity.id := fun hEq => by
          rw [hEq, hCt1] at hc1; exact hct hc1.symm
        have hne2 : (f.cellAt c).entity.id ≠ (f.cellAt m.from').entity.id := fun hEq => by
          rw [hEq, hCf1] at hc1; exact hcf hc1.symm
        rw [positions_set_ne _ _ _ _ hne1, positions_set_ne _ _ _ _ hne2]
        exact ⟨hc1, hc2⟩
  · intro c hc
    by_cases hcf : c = m.from'
    · subst hcf
      rw [cellAt_set_self] at hc
      exact absurd hc hta
    · by_cases hct : c = m.to'
      · subst hct
        rw [cellAt_set_ne _ _ _ _ (Ne.symm hft), cellAt_set_self] at hc
        exact absurd hc hfe
      · rw [cellAt_set_ne _ _ _ _ hcf, cellAt_set_ne _ _ _ _ hct] at hc ⊢
        exact hN c hc

/-- The cell one step beyond the target differs from both endpoints of a
proper move. -/
theorem nextCell_ne_endpoints (m : Move) (hft : m.from' ≠ m.to') :
    (⟨2 * m.to'.row - m.from'.row, 2 * m.to'.col - m.from'.col⟩ : Cell) ≠ m.from' ∧
    (⟨2 * m.to'.row - m.from'.row, 2 * m.to'.col - m.from'.col⟩ : Cell) ≠ m.to' := by
  obtain ⟨⟨fr, fc⟩, ⟨tr, tc⟩⟩ := m
  constructor <;> intro hEq <;> apply hft <;>
    (injection hEq with h1 h2
     dsimp only at h1 h2
     show (⟨fr, fc⟩ : Cell) = ⟨tr, tc⟩
     have e1 : fr = tr := by omega
     have e2 : fc = tc := by omega
     rw [e1, e2])

/-- The `nextCell` of `checkMove` coincides with the `nextCell` computed in
`pushMove`. -/
theorem nextCell_eq (m : Move) :
    m.nextCell = ⟨2 * m.to'.row - m.from'.row, 2 * m.to'.col - m.from'.col⟩ := by
  unfold Move.nextCell
  congr 1 <;> ring

/-- `Inv` is preserved by `pushMove` under the facts guaranteed by a `PUSH`
classification. -/
theorem Inv_pushMove (f : Field) (m : Move)
    (hft : m.from' ≠ m.to')
    (hfe : (f.cellAt m.from').entity.type ≠ EntityType.NONE_TYPE)
    (hnE0 : (f.cellAt m.nextCell).entity.type = EntityType.NONE_TYPE)
    (hinv : Inv f) : Inv (f.pushMove m) := by
  obtain ⟨hA, hC, hN⟩ := hinv
  obtain ⟨hCf1, hCf2⟩ := hC m.from' hfe
  have hnE : (f.cellAt (⟨2 * m.to'.row - m.from'.row,
      2 * m.to'.col - m.from'.col⟩ : Cell)).entity.type = EntityType.NONE_TYPE := by
    rw [← nextCell_eq m]; exact hnE0
  obtain ⟨hnf, hnt⟩ := nextCell_ne_endpoints m hft
  have hSP : (f.cellAt m.from').entity.id ≠ (f.cellAt m.to').entity.id := by
    by_cases hPt : (f.cellAt m.to').entity.type = EntityType.NONE_TYPE
    · rw [hN m.to' hPt]
      intro hEq
      rw [hEq] at hCf2
      exact absurd hCf2 (by decide)
    · intro hEq
      have h2 := (hC m.to' hPt).1
      rw [← hEq] at h2
      exact hft (hCf1.symm.trans h2)
  have hmain : Inv (((f.clear m.from').set m.to' (f.cellAt m.from').entity).set
      ⟨2 * m.to'.row - m.from'.row, 2 * m.to'.col - m.from'.col⟩ (f.cellAt m.to').entity) := by
    refine ⟨?_, ?_, ?_⟩
    · intro id hid
      obtain ⟨ha1, ha2, ha3⟩ := hA id hid
      by_cases hidP : id = (f.cellAt m.to').entity.id
      · by_cases hPt : (f.cellAt m.to').entity.type = EntityType.NONE_TYPE
        · exfalso
          rw [hidP, hN m.to' hPt] at ha3
          exact absurd ha3 (by decide)
        · subst hidP
          rw [positions_set_self, cellAt_set_self]
          exact ⟨rfl, hPt, ha3⟩
      · by_cases hidS : id = (f.cellAt m.from').entity.id
        · subst hidS
          rw [positions_set_ne _ _ _ _ hSP, positions_set_self,
            cellAt_set_ne _ _ _ _ (Ne.symm hnt), cellAt_set_self]
          exact ⟨rfl, hfe, ha3⟩
        · have hne_from : f.positions id ≠ m.from' := fun hEq => by
            rw [hEq] at ha1; exact hidS ha1.symm
          have hne_to : f.positions id ≠ m.to' := fun hEq => by
            rw [hEq] at ha1; exact hidP ha1.symm
          have hne_nc : f.positions id ≠
              (⟨2 * m.to'.row - m.from'.row, 2 * m.to'.col - m.from'.col⟩ : Cell) := by
            intro hEq
            rw [hEq] at ha2
            exact ha2 hnE
          rw [positions_set_ne _ _ _ _ hidP, positions_set_ne _ _ _ _ hidS, positions_clear,
            cellAt_set_ne _ _ _ _ hne_nc, cellAt_set_ne _ _ _ _ hne_to,
            cellAt_clear_ne _ _ _ hne_from]
          exact ⟨ha1, ha2, ha3⟩
    · intro c hc
      by_cases hcn : c = (⟨2 * m.to'.row - m.from'.row, 2 * m.to'.col - m.from'.col⟩ : Cell)
      · subst hcn
        rw [cellAt_set_self] at hc ⊢
        exact ⟨positions_set_self _ _ _, (hC m.to' hc).2⟩
      · by_cases hct : c = m.to'
        · subst hct
          rw [cellAt_set_ne _ _ _ _ (Ne.symm hnt), cellAt_set_self] at hc ⊢
          refine ⟨?_, hCf2⟩
          rw [positions_set_ne _ _ _ _ hSP, positions_set_self]
        · by_cases hcf : c = m.from'
          · subst hcf
            rw [cellAt_set_ne _ _ _ _ (Ne.symm hnf), cellAt_set_ne _ _ _ _ hft,
              cellAt_clear_self] at hc
            exact absurd rfl hc
          · rw [cellAt_set_ne _ _ _ _ hcn, cellAt_set_ne _ _ _ _ hct,
              cellAt_clear_ne _ _ _ hcf] at hc ⊢
            obtain ⟨hc1, hc2⟩ := hC c hc
            have hneP : (f.cellAt c).entity.id ≠ (f.cellAt m.to').entity.id := by
              by_cases hPt : (f.cellAt m.to').entity.type = EntityType.NONE_TYPE
              · rw [hN m.to' hPt]
                intro hEq
                rw [hEq] at hc2
                exact absurd hc2 (by decide)
              · intro hEq
                rw [hEq, (hC m.to' hPt).1] at hc1
                exact hct hc1.symm
            have hneS : (f.cellAt c).entity.id ≠ (f.cellAt m.from').entity.id := fun hEq => by
              rw [hEq, hCf1] at hc1; exact hcf hc1.symm
            rw [positions_set_ne _ _ _ _ hneP, positions_set_ne _ _ _ _ hneS, positions_clear]
            exact ⟨hc1, hc2⟩
    · intro c hc
      by_cases hcn : c = (⟨2 * m.to'.row - m.from'.row, 2 * m.to'.col - m.from'.col⟩ : Cell)
      · subst hcn
        rw [cellAt_set_self] at hc ⊢
        exact hN m.to' hc
      · by_cases hct : c = m.to'
        · subst hct
          rw [cellAt_set_ne _ _ _ _ (Ne.symm hnt), cellAt_set_self] at hc
          exact absurd hc hfe
        · by_cases hcf : c = m.from'
          · subst hcf
            rw [cellAt_set_ne _ _ _ _ (Ne.symm hnf), cellAt_set_ne _ _ _ _ hft,
              cellAt_clear_self]
          · rw [cellAt_set_ne _ _ _ _ hcn, cellAt_set_ne _ _ _ _ hct,
              cellAt_clear_ne _ _ _ hcf] at hc ⊢
            exact hN c hc
  unfold Field.pushMove
  by_cases hh : ((((f.clear m.from').set m.to' (f.cellAt m.from').entity).set
      ⟨2 * m.to'.row - m.from'.row, 2 * m.to'.col - m.from'.col⟩
      (f.cellAt m.to').entity).cellAt
      ⟨2 * m.to'.row - m.from'.row, 2 * m.to'.col - m.from'.col⟩).hasHouse = true
  · rw [if_pos hh]
    exact Inv_filter_lists _ _ _ hmain
  · rw [if_neg hh]
    exact hmain

/-- `Inv` is preserved by one step of the (total) move application. -/
theorem Inv_doMoveQuiet (f : Field) (m : Move) (hinv : Inv f) : Inv (f.doMoveQuiet m) := by
  unfold Field.doMoveQuiet
  cases hcm : f.checkMove m
  · exact hinv
  · exact hinv
  · obtain ⟨h1, h2, h3⟩ := (checkMove_apply_facts f m).1 hcm
    exact Inv_baseOrDoubleMove f m h1 h2 h3 hinv
  · obtain ⟨h1, h2, h3⟩ := (checkMove_apply_facts f m).2.1 hcm
    exact Inv_baseOrDoubleMove f m h1 h2 h3 hinv
  · obtain ⟨h1, h2, h3⟩ := (checkMove_apply_facts f m).2.2.1 hcm
    exact Inv_swapMove f m h1 h2 h3 hinv
  · obtain ⟨h1, h2, h3⟩ := (checkMove_apply_facts f m).2.2.2 hcm
    exact Inv_pushMove f m h1 h2 h3 hinv

/-- `Inv` is preserved by any sequence of applied moves. -/
theorem Inv_applyMoves (f : Field) (ms : List Move) (hinv : Inv f) :
    Inv (f.applyMoves ms) := by
  induction ms generalizing f with
  | nil => exact hinv
  | cons m ms ih => exact ih (f.doMoveQuiet m) (Inv_doMoveQuiet f m hinv)

/-- Registering houses never touches the entity layer of the grid. -/
theorem entity_foldl_addHouse (hs : List Cell) (f : Field) (c : Cell) :
    ((hs.foldl addHouse f).cellAt c).entity = (f.cellAt c).entity := by
  induction hs generalizing f with
  | nil => rfl
  | cons h t ih =>
    rw [List.foldl_cons, ih]
    show (if c = h then { f.cellAt h with hasHouse := true } else f.cellAt c).entity =
      (f.cellAt c).entity
    by_cases hc : c = h
    · rw [if_pos hc, hc]
    · rw [if_neg hc]

/-- Registering houses never touches the position index. -/
theorem positions_foldl_addHouse (hs : List Cell) (f : Field) :
    (hs.foldl addHouse f).positions = f.positions := by
  induction hs generalizing f with
  | nil => rfl
  | cons h t ih =>
    rw [List.foldl_cons]
    exact ih (addHouse f h)

/-- Grid-to-index consistency together with a bound on which entity ids can
appear on the grid; used to build the invariant of the initial board one
placement at a time. -/
def GridOK (f : Field) (S : List Int) : Prop :=
  (∀ c : Cell, (f.cellAt c).entity.type ≠ EntityType.NONE_TYPE →
    (f.positions ((f.cellAt c).entity.id) = c ∧ 0 ≤ (f.cellAt c).entity.id) ∧
    (f.cellAt c).entity.id ∈ S) ∧
  (∀ c : Cell, (f.cellAt c).entity.type = EntityType.NONE_TYPE →
    (f.cellAt c).entity = NONE_ENTITY)

/-- Placing a fresh, well-formed entity preserves `GridOK`. -/
theorem GridOK_set (f : Field) (S : List Int) (cell : Cell) (e : Entity)
    (hfresh : e.id ∉ S) (het : e.type ≠ EntityType.NONE_TYPE) (hid : 0 ≤ e.id)
    (hg : GridOK f S) : GridOK (f.set cell e) (e.id :: S) := by
  obtain ⟨hC, hN⟩ := hg
  constructor
  · intro c hc
    by_cases hc0 : c = cell
    · subst hc0
      rw [cellAt_set_self]
      exact ⟨⟨positions_set_self _ _ _, hid⟩, List.mem_cons_self _ _⟩
    · rw [cellAt_set_ne _ _ _ _ hc0] at hc ⊢
      obtain ⟨⟨h1, h2⟩, h3⟩ := hC c hc
      have hne : (f.cellAt c).entity.id ≠ e.id := fun hEq => hfresh (hEq ▸ h3)
      rw [positions_set_ne _ _ _ _ hne]
      exact ⟨⟨h1, h2⟩, List.mem_cons_of_mem _ h3⟩
  · intro c hc
    by_cases hc0 : c = cell
    · subst hc0
      rw [cellAt_set_self] at hc
      exact absurd hc het
    · rw [cellAt_set_ne _ _ _ _ hc0] at hc ⊢
      exact hN c hc

/-- The field read from the protocol before any entity placement is an empty
grid (whatever the 13 house cells are). -/
theorem GridOK_base (hs : List Cell) :
    GridOK { hs.foldl addHouse emptyField with activeEntities := activeInit } [] := by
  constructor
  · intro c hc
    exfalso
    have hent : (({ hs.foldl addHouse emptyField with
        activeEntities := activeInit } : Field).cellAt c).entity = NONE_ENTITY :=
      entity_foldl_addHouse hs emptyField c
    rw [hent] at hc
    exact hc rfl
  · intro c _
    exact entity_foldl_addHouse hs emptyField c

set_option maxHeartbeats 3200000 in
/-- The initial board satisfies the consistency invariant, for every list of
house cells. -/
theorem Inv_initField (hs : List Cell) : Inv (initField hs) := by
  unfold initField placeEntities
  have g0 := GridOK_base hs
  have g1 := GridOK_set _ _ ⟨rowForPlayer 0 0, 0⟩ (Entity.make 0 .ACROBAT false)
    (by decide) (by decide) (by decide) g0
  have g2 := GridOK_set _ _ ⟨rowForPlayer 1 0, 0⟩ (Entity.make 0 .CLOWN false)
    (by decide) (by decide) (by decide) g1
  have g3 := GridOK_set _ _ ⟨rowForPlayer 0 0, 1⟩ (Entity.make 0 .CLOWN true)
    (by decide) (by decide) (by decide) g2
  have g4 := GridOK_set _ _ ⟨rowForPlayer 1 0, 1⟩ (Entity.make 0 .MAGICIAN false)
    (by decide) (by decide) (by decide) g3
  have g5 := GridOK_set _ _ ⟨rowForPlayer 2 0, 0⟩ (Entity.make 0 .STRONGMAN false)
    (by decide) (by decide) (by decide) g4
  have g6 := GridOK_set _ _ ⟨rowForPlayer 0 0, 2⟩ (Entity.make 0 .STRONGMAN true)
    (by decide) (by decide) (by decide) g5
  have g7 := GridOK_set _ _ ⟨rowForPlayer 3 0, 0⟩ (Entity.make 0 .TRAINER false)
    (by decide) (by decide) (by decide) g6
  have g8 := GridOK_set _ _ ⟨rowForPlayer 0 1, 0⟩ (Entity.make 1 .ACROBAT false)
    (by decide) (by decide) (by decide) g7
  have g9 := GridOK_set _ _ ⟨rowForPlayer 1 1, 0⟩ (Entity.make 1 .CLOWN false)
    (by decide) (by decide) (by decide) g8
  have g10 := GridOK_set _ _ ⟨rowForPlayer 0 1, 1⟩ (Entity.make 1 .CLOWN true)
    (by decide) (by decide) (by decide) g9
  have g11 := GridOK_set _ _ ⟨rowForPlayer 1 1, 1⟩ (Entity.make 1 .MAGICIAN false)
    (by decide) (by decide) (by decide) g10
  have g12 := GridOK_set _ _ ⟨rowForPlayer 2 1, 0⟩ (Entity.make 1 .STRONGMAN false)
    (by decide) (by decide) (by decide) g11
  have g13 := GridOK_set _ _ ⟨rowForPlayer 0 1, 2⟩ (Entity.make 1 .STRONGMAN true)
    (by decide) (by decide) (by decide) g12
  have g14 := GridOK_set _ _ ⟨rowForPlayer 3 1, 0⟩ (Entity.make 1 .TRAINER false)
    (by decide) (by decide) (by decide) g13
  obtain ⟨gC, gN⟩ := g14
  refine ⟨?_, fun c hc => (gC c hc).1, fun c hc => gN c hc⟩
  intro id hid
  have hid' : id ∈ activeInit := List.elem_iff.mp hid
  simp only [activeInit, List.mem_cons, List.not_mem_nil, or_false] at hid'
  rcases hid' with rfl | rfl | rfl | rfl | rfl | rfl | rfl | rfl | rfl | rfl | rfl | rfl |
    rfl | rfl <;>
    refine ⟨?_, ?_, by decide⟩ <;>
    simp [initField, placeEntities, Field.set, rowForPlayer, Entity.make, Entity.idOf,
      EntityType.code, FIELD_HEIGHT]

/-! ### Claim C9 -/

/-- Claim C9: starting from the initial board, after any sequence of moves
each of which is legal when applied, every id in the active-entity set is
indexed to a grid cell that holds an entity with exactly that id (the cell
is occupied), and no two active ids are indexed to the same cell. -/
theorem C9_position_index (houseCells : List Cell) (ms : List Move)
    (hlegal : (initField houseCells).legalSeq ms = true) :
    (∀ id : Int,
      ((initField houseCells).applyMoves ms).activeEntities.contains id = true →
      (((initField houseCells).applyMoves ms).cellAt
        (((initField houseCells).applyMoves ms).positions id)).entity.id = id ∧
      (((initField houseCells).applyMoves ms).cellAt
        (((initField houseCells).applyMoves ms).positions id)).entity.type ≠
        EntityType.NONE_TYPE) ∧
    (∀ id1 id2 : Int,
      ((initField houseCells).applyMoves ms).activeEntities.contains id1 = true →
      ((initField houseCells).applyMoves ms).activeEntities.contains id2 = true →
      ((initField houseCells).applyMoves ms).positions id1 =
        ((initField houseCells).applyMoves ms).positions id2 →
      id1 = id2) := by
  have hinv := Inv_applyMoves (initField houseCells) ms (Inv_initField houseCells)
  obtain ⟨hA, hC, hN⟩ := hinv
  refine ⟨fun id hid => ⟨(hA id hid).1, (hA id hid).2.1⟩, ?_⟩
  intro id1 id2 h1 h2 heq
  have e1 := (hA id1 h1).1
  have e2 := (hA id2 h2).1
  rw [← e1, ← e2, heq]

/-- Witness for `C9_position_index`: on the initial board with the sample
houses, after the legal clown step `(1,0) -> (2,1)`, the active id 0 is
still indexed to a cell holding entity id 0. -/
theorem C9_position_index_witness :
    (((initField sampleHouses).applyMoves [⟨⟨1, 0⟩, ⟨2, 1⟩⟩]).cellAt
      (((initField sampleHouses).applyMoves [⟨⟨1, 0⟩, ⟨2, 1⟩⟩]).positions 0)).entity.id = 0 :=
  ((C9_position_index sampleHouses [⟨⟨1, 0⟩, ⟨2, 1⟩⟩] (by decide)).1 0 (by decide)).1

end Circus
